import Mathlib

/-!
Shallow embedding of `pymeasure/instruments/siglenttechnologies/siglent_sds1072cml.py`
(SIGLENT SDS1072CML oscilloscope driver).

Modelling conventions:
* Python `float` values are embedded as exact rationals (`ℚ`); the driver only
  multiplies, subtracts and compares them, and no claim depends on IEEE rounding.
* Byte buffers returned by the instrument are `List Nat` (each entry a byte value;
  decoders normalise with `% 256`).
* Instrument I/O is represented by an explicit event trace: `Event.query c` is a
  formatted query round trip (write of `c` followed by a string read),
  `Event.write c` a bare command write, `Event.readBytes` a terminated raw read.
* The replies the instrument would give to the read operations are passed in as
  explicit parameters, so every function is pure and executable.
* The platform fixed by the embedding is the usual CPython deployment target of
  this driver: a little-endian LP64 machine, where the native `struct` format
  code used by the source, `"l"`, denotes an 8-byte little-endian signed integer,
  `"f"` a 4-byte and `"d"` an 8-byte little-endian IEEE float.
-/

namespace Siglent

/-- A Python float, represented exactly as an unnormalised fraction
`n / d` (with `d > 0` for every value the model constructs).  The fraction is
kept unnormalised so that all arithmetic on it is plain integer arithmetic;
numeric equality is the cross-multiplication test `pyFloatEqb`. -/
structure PyFloat where
  n : ℤ
  d : ℕ
  deriving DecidableEq

/-- The rational value of a model float (for specification statements). -/
def pyFloatVal (f : PyFloat) : ℚ := (f.n : ℚ) / (f.d : ℚ)

/-- Python `==` on floats: numeric equality of the fractions. -/
def pyFloatEqb (a b : PyFloat) : Bool :=
  a.n * (b.d : ℤ) = b.n * (a.d : ℤ)

/-- A Python value stored in the trigger configuration dictionary: the driver
only ever stores strings and floats there. -/
inductive PVal where
  | str (s : String)
  | num (f : PyFloat)
  deriving DecidableEq

/-- Python `==` on stored values: string equality, float numeric equality,
and `False` across types (a Python `str` never equals a `float`). -/
def pvalEqb : PVal → PVal → Bool
  | PVal.str a, PVal.str b => decide (a = b)
  | PVal.num a, PVal.num b => pyFloatEqb a b
  | _, _ => false

/-- One I/O interaction with the instrument. -/
inductive Event where
  | query (cmd : String)
  | write (cmd : String)
  | readBytes
  deriving DecidableEq

/-- Python exceptions that the trigger transaction can raise. `readFail` stands
for the exception propagated out of a read (IndexError / ValueError while
parsing a reply), `keyError k` for `KeyError(k)` during the dict diff,
`typeError` for `TypeError` raised by `"%.2e" % v` on a non-float `v`. -/
inductive PyErr where
  | readFail
  | keyError (k : String)
  | typeError
  deriving DecidableEq

/-- The command strings written by a trace. -/
def writesOf (evs : List Event) : List String :=
  evs.filterMap (fun e => match e with | Event.write c => some c | _ => none)

/-- Python `v.split(sep)` on a character list, for a one-character separator
(the only separators this driver uses are `" "`, `":"` and `","`).  Like
Python, splitting the empty string gives `[""]`. -/
def splitChar (sep : Char) : List Char → List (List Char)
  | [] => [[]]
  | c :: rest =>
    if c = sep then [] :: splitChar sep rest
    else
      match splitChar sep rest with
      | [] => [[c]]
      | g :: gs => (c :: g) :: gs

/-- Rejoin groups with the separator (inverse of `splitChar` past the first
group, used to model Python's `maxsplit=1`). -/
def joinSep (sep : Char) : List (List Char) → List Char
  | [] => []
  | [g] => g
  | g :: gs => g ++ sep :: joinSep sep gs

/-- Python `v.split(sep, 1)[-1]`: everything after the first occurrence of
`sep`, or the whole string when `sep` does not occur. -/
def splitFirstTail (sep : Char) (v : String) : String :=
  match splitChar sep v.data with
  | [] => v
  | [x] => String.mk x
  | _ :: rest => String.mk (joinSep sep rest)

/-- Python `v.split(sep, 1)[0]`: everything before the first occurrence of
`sep` (the whole string when `sep` does not occur). -/
def splitFirstHead (sep : Char) (v : String) : String :=
  String.mk ((splitChar sep v.data).headD v.data)

/-- Python `v.split(sep, 1)[1]`: `none` models the `IndexError` raised when
`sep` does not occur in `v`. -/
def splitFirstSecond (sep : Char) (v : String) : Option String :=
  match splitChar sep v.data with
  | [] => none
  | [_] => none
  | _ :: rest => some (String.mk (joinSep sep rest))

/-- Python `s[:-2]`. -/
def dropLast2 (s : String) : String :=
  String.mk (s.data.take (s.data.length - 2))

/-- Value of a list of decimal digit characters, most significant first. -/
def digitsVal (cs : List Char) : Nat :=
  cs.foldl (fun a c => 10 * a + (c.toNat - 48)) 0

/-- The whitespace Python `str.strip()` removes (the common ASCII cases). -/
def isPySpace (c : Char) : Bool :=
  c = ' ' ∨ c = '\t' ∨ c = '\n' ∨ c = '\r'

/-- Strip leading and trailing whitespace. -/
def trimChars (cs : List Char) : List Char :=
  ((cs.dropWhile isPySpace).reverse.dropWhile isPySpace).reverse

/-- Python `float(s)` on the decimal / scientific literals this driver meets:
optional sign, digits with an optional decimal point, optional `e`/`E`
exponent, surrounding whitespace stripped.  `none` models `ValueError`.
The resulting value is exact (Python rounds it to the nearest binary double;
no claim depends on that rounding).  Digit-group underscores, `inf` and `nan`
are outside the model. -/
def pythonFloat (s : String) : Option PyFloat :=
  let cs := trimChars s.data
  let sgn : ℤ := match cs with
    | '-' :: _ => -1
    | _ => 1
  let cs := match cs with
    | '-' :: rest => rest
    | '+' :: rest => rest
    | _ => cs
  let ip := cs.takeWhile Char.isDigit
  let cs := cs.dropWhile Char.isDigit
  let fp := match cs with
    | '.' :: rest => rest.takeWhile Char.isDigit
    | _ => []
  let cs := match cs with
    | '.' :: rest => rest.dropWhile Char.isDigit
    | _ => cs
  if ip.isEmpty ∧ fp.isEmpty then none
  else
    let mn : ℤ := sgn * ((digitsVal ip : ℤ) * 10 ^ fp.length + (digitsVal fp : ℤ))
    let md : ℕ := 10 ^ fp.length
    match cs with
    | [] => some ⟨mn, md⟩
    | e :: rest =>
      if e = 'e' ∨ e = 'E' then
        let esgn : ℤ := match rest with
          | '-' :: _ => -1
          | _ => 1
        let rest := match rest with
          | '-' :: r => r
          | '+' :: r => r
          | _ => rest
        let ed := rest.takeWhile Char.isDigit
        let rest2 := rest.dropWhile Char.isDigit
        if ed.isEmpty ∨ ¬ rest2.isEmpty then none
        else
          let k : ℤ := esgn * (digitsVal ed : ℤ)
          if 0 ≤ k then some ⟨mn * 10 ^ k.toNat, md⟩
          else some ⟨mn, md * 10 ^ (-k).toNat⟩
      else none

/-- Round a rational to the nearest integer, ties to even (Python / IEEE
rounding of exactly representable halves). -/
def roundHalfEven (x : ℚ) : ℤ :=
  let n := ⌊x⌋
  let r := x - n
  if r < 1 / 2 then n
  else if 1 / 2 < r then n + 1
  else if n % 2 = 0 then n else n + 1

/-- Two-digit zero-padded decimal rendering. -/
def natPad2 (n : Nat) : String :=
  if n < 10 then "0" ++ toString n else toString n

/-- Python `"%.2e" % q` on the rational model of the float `q`. -/
def fmtE2 (q : ℚ) : String :=
  if q = 0 then "0.00e+00"
  else
    let a : ℚ := |q|
    let sgn := if q < 0 then "-" else ""
    let k0 : ℤ := (Nat.log 10 a.num.natAbs : ℤ) - (Nat.log 10 a.den : ℤ)
    let k1 : ℤ := if a < 10 ^ k0 then k0 - 1 else if (10 : ℚ) ^ (k0 + 1) ≤ a then k0 + 1 else k0
    let m : ℤ := roundHalfEven (a * 10 ^ ((2 : ℤ) - k1))
    let mk : ℤ × ℤ := if m = 1000 then (100, k1 + 1) else (m, k1)
    let ds := toString (mk.1 / 100) ++ "." ++ natPad2 ((mk.1 % 100).toNat)
    let es := if mk.2 < 0 then "-" ++ natPad2 (-mk.2).toNat else "+" ++ natPad2 mk.2.toNat
    sgn ++ ds ++ "e" ++ es

/-- Substitute the successive `%s` holes of a Python `%`-format template. -/
def substS : List Char → List String → List Char
  | '%' :: 's' :: rest, a :: args => a.data ++ substS rest args
  | c :: rest, args => c :: substS rest args
  | [], _ => []

/-- Python `template % args` for pure-`%s` templates. -/
def pyFmtS (tmpl : String) (args : List String) : String :=
  String.mk (substS tmpl.data args)

/-- Python `str(v)` as used when a `%s` hole receives a stored value.  For the
numeric case the rational's canonical rendering is used (every claim below
exercises only string-valued fields here). -/
def pvalStr : PVal → String
  | PVal.str s => s
  | PVal.num f => toString f.n ++ "/" ++ toString f.d

/-- Replace each occurrence of the four-character placeholder (`"{ch}"`,
written here by character codes to keep the braces out of string literals)
with the channel id. -/
def substCh (idS : List Char) : List Char → List Char
  | '\x7b' :: 'c' :: 'h' :: '\x7d' :: rest => idS ++ substCh idS rest
  | c :: rest => c :: substCh idS rest
  | [] => []

/-- Modelled from the spec (§2 Property Accessor, §6 command grammar): the
channel framework class `Channel` of this repository is not under `src/`; its
`insert_id` substitutes the channel's `id` for the `{ch}` placeholder of a
command template before writing. -/
def insertId (idS cmd : String) : String :=
  String.mk (substCh idS.data cmd.data)

/-- The logical trigger configuration: the eight keys the driver's dictionary
holds after any read (`type`, `source`, `hold_type`, `hold_value1`, `level`,
`slope`, `mode`, `coupling`).  Each field stores an arbitrary Python value,
exactly as a Python dict slot would; the parsers below store strings for all
fields except `level`, which stores a float. -/
structure TriggerConf where
  type : PVal
  source : PVal
  hold_type : PVal
  hold_value1 : PVal
  level : PVal
  slope : PVal
  mode : PVal
  coupling : PVal
  deriving DecidableEq

/-- Python `==` on two eight-key configuration dicts: same keys (always true
here) and `==`-equal values. -/
def confEqb (a b : TriggerConf) : Bool :=
  pvalEqb a.type b.type ∧ pvalEqb a.source b.source ∧ pvalEqb a.hold_type b.hold_type ∧
    pvalEqb a.hold_value1 b.hold_value1 ∧ pvalEqb a.level b.level ∧
    pvalEqb a.slope b.slope ∧ pvalEqb a.mode b.mode ∧ pvalEqb a.coupling b.coupling

/-- Python `triggerConfDict[k]` on the eight-key configuration dict: `none`
models the `KeyError` raised for any other key.  (After every read the dict
holds exactly these eight keys, see `get_triggerConfig`.) -/
def confGet (c : TriggerConf) (k : String) : Option PVal :=
  if k = "type" then some c.type
  else if k = "source" then some c.source
  else if k = "hold_type" then some c.hold_type
  else if k = "hold_value1" then some c.hold_value1
  else if k = "level" then some c.level
  else if k = "slope" then some c.slope
  else if k = "mode" then some c.mode
  else if k = "coupling" then some c.coupling
  else none

/-- Python `triggerConfDict[k] = v` for one of the eight keys (the transaction
only assigns keys that passed `confGet`, so the fall-through branch is
unreachable there). -/
def confSet (c : TriggerConf) (k : String) (v : PVal) : TriggerConf :=
  if k = "type" then { c with type := v }
  else if k = "source" then { c with source := v }
  else if k = "hold_type" then { c with hold_type := v }
  else if k = "hold_value1" then { c with hold_value1 := v }
  else if k = "level" then { c with level := v }
  else if k = "slope" then { c with slope := v }
  else if k = "mode" then { c with mode := v }
  else if k = "coupling" then { c with coupling := v }
  else c

/-- The five reply strings the instrument returns to one round of the trigger
queries `TRSE?`, `TRLV?`, `TRSL?`, `TRMD?`, `TRCP?`. -/
structure TrigReplies where
  trse : String
  trlv : String
  trsl : String
  trmd : String
  trcp : String

/-- `trigger_setup` measurement: `preprocess_reply` keeps `v.split(" ", 1)[1]`,
the framework tokenises the remainder on commas (spec §4.3: the tokens are
taken as strings), and `get_process` picks tokens 0, 2, 4, 6 as
type / source / hold_type / hold_value1.  `none` models the IndexError on a
malformed reply. -/
def parse_trigger_setup (v : String) : Option (String × String × String × String) := do
  let body ← splitFirstSecond ' ' v
  let toks := (splitChar ',' body.data).map String.mk
  let t ← toks.get? 0
  let src ← toks.get? 2
  let ht ← toks.get? 4
  let hv ← toks.get? 6
  return (t, src, ht, hv)

/-- `trigger_level` measurement `get_process`: source is the text before the
first `:`, the level is `float(v.split(" ", 1)[-1][:-2])`; `none` models the
`ValueError` from `float`. -/
def parse_trigger_level (v : String) : Option (String × PyFloat) := do
  let lvl ← pythonFloat (dropLast2 (splitFirstTail ' ' v))
  return (splitFirstHead ':' v, lvl)

/-- `trigger_slope` measurement `get_process` (total: no parse can fail). -/
def parse_trigger_slope (v : String) : String × String :=
  (splitFirstHead ':' v, splitFirstTail ' ' v)

/-- `trigger_mode` measurement `get_process`. -/
def parse_trigger_mode (v : String) : String :=
  splitFirstTail ' ' v

/-- `trigger_coupling` measurement `get_process`. -/
def parse_trigger_coupling (v : String) : String × String :=
  (splitFirstHead ':' v, splitFirstTail ' ' v)

/-- `TriggerChannel.get_triggerConfig`: issues `TRSE?`, `TRLV?`, `TRSL?`,
`TRMD?`, `TRCP?` in that order, folding each parsed reply into the cached
dictionary by `dict.update`.  The five updates together overwrite all eight
keys, with `source` written by the setup, level, slope and coupling reads in
that order (so the coupling read wins).  Returns the trace of queries and
either the new configuration (`Except.ok`) or — when a reply fails to parse,
which in Python raises out of the property access — the partially updated
dictionary (`Except.error`). -/
def get_triggerConfig (cache : TriggerConf) (r : TrigReplies) :
    List Event × Except TriggerConf TriggerConf :=
  match parse_trigger_setup r.trse with
  | none => ([Event.query "TRSE?"], Except.error cache)
  | some (t, src1, ht, hv) =>
    let c1 := { cache with type := PVal.str t, source := PVal.str src1,
                           hold_type := PVal.str ht, hold_value1 := PVal.str hv }
    match parse_trigger_level r.trlv with
    | none => ([Event.query "TRSE?", Event.query "TRLV?"], Except.error c1)
    | some (src2, lvl) =>
      let c2 := { c1 with source := PVal.str src2, level := PVal.num lvl }
      let sl := parse_trigger_slope r.trsl
      let c3 := { c2 with source := PVal.str sl.1, slope := PVal.str sl.2 }
      let c4 := { c3 with mode := PVal.str (parse_trigger_mode r.trmd) }
      let cp := parse_trigger_coupling r.trcp
      let c5 := { c4 with source := PVal.str cp.1, coupling := PVal.str cp.2 }
      ([Event.query "TRSE?", Event.query "TRLV?", Event.query "TRSL?",
        Event.query "TRMD?", Event.query "TRCP?"], Except.ok c5)

/-- The mutable state of the `TriggerChannel` object: its `id` (the value
substituted for `{ch}`; the trigger channel is created with id `""` and
`set_triggerConfig` may overwrite it with `kwargs["source"]`) and the cached
configuration dictionary `triggerConfDict`.  The initial empty dict is
represented by an arbitrary configuration: every read overwrites all eight
keys before the cache is consulted, so no claim can observe the difference. -/
structure TrigState where
  id : PVal
  triggerConfDict : TriggerConf

/-- Python `kwargs.get(k)` / `kwargs[k]` on the keyword-argument dict
(keyword arguments cannot repeat, so first-match lookup is exact). -/
def lookupKw (kwargs : List (String × PVal)) (k : String) : Option PVal :=
  (kwargs.find? (fun p => p.1 = k)).map Prod.snd

/-- `if kwargs.get("source") is not None: self.id = kwargs["source"]` — the
channel id after the optional overwrite.  (A literal `source=None` keyword is
outside the model; the driver's values are strings and floats.) -/
def sourcedId (st : TrigState) (kwargs : List (String × PVal)) : PVal :=
  match lookupKw kwargs "source" with
  | some v => v
  | none => st.id

/-- `changedValues = [key for key in kwargs if triggerConfDict[key] != kwargs[key]]`:
keeps the keyword order, raises `KeyError` at the first key missing from the
eight-key configuration dict. -/
def changedValues (c : TriggerConf) : List (String × PVal) → Except PyErr (List String)
  | [] => Except.ok []
  | (k, v) :: rest =>
    match confGet c k with
    | none => Except.error (PyErr.keyError k)
    | some cur =>
      match changedValues c rest with
      | Except.error e => Except.error e
      | Except.ok tail => Except.ok (if pvalEqb cur v then tail else k :: tail)

/-- The `setValues` table: which configuration keys belong to which command
group. -/
def setValues : String → List String
  | "setup" => ["source", "type", "hold_type", "hold_value1"]
  | "level" => ["level"]
  | "coupling" => ["coupling"]
  | "slope" => ["slope"]
  | "mode" => ["mode"]
  | _ => []

/-- Insertion order of the `setValues` dict literal, i.e. the iteration order
of `[key for key in setValues if ...]`. -/
def groupOrder : List String := ["setup", "level", "coupling", "slope", "mode"]

/-- `processToChange = [key for key in setValues if any([value in changedValues
for value in setValues[key]])]`. -/
def processToChange (changed : List String) : List String :=
  groupOrder.filter (fun g => (setValues g).any (fun v => changed.contains v))

/-- `for changedKey in changedValues: triggerConfDict[changedKey] = kwargs[changedKey]`.
(The `.getD` default is unreachable: every changed key is a kwargs key.) -/
def applyDeltas (c : TriggerConf) (kwargs : List (String × PVal)) (changed : List String) :
    TriggerConf :=
  changed.foldl (fun acc k => confSet acc k ((lookupKw kwargs k).getD (PVal.str ""))) c

/-- `setCommands[g] % setProcesses[g](triggerConfDict)`: the one command a
dirty group writes, formatted from the merged dictionary.  `none` models the
`TypeError` of `"%.2e" % v` when the stored level is not a float. -/
def setCommand (g : String) (c : TriggerConf) : Option String :=
  if g = "setup" then
    some (pyFmtS "TRSE %s,SR,{ch},HT,%s,HV,%s" [pvalStr c.type, pvalStr c.hold_type, pvalStr c.hold_value1])
  else if g = "level" then
    match c.level with
    | PVal.num f => some (pyFmtS "{ch}:TRLV %s" [fmtE2 (pyFloatVal f) ++ "V"])
    | PVal.str _ => none
  else if g = "coupling" then some (pyFmtS "{ch}:TRCP %s" [pvalStr c.coupling])
  else if g = "slope" then some (pyFmtS "{ch}:TRSL %s" [pvalStr c.slope])
  else if g = "mode" then some (pyFmtS "TRMD %s" [pvalStr c.mode])
  else none

/-- `for processKey in processToChange: self.write(setCommands[processKey] % ...)`.
Returns the write events that happened and whether the loop completed
(`false` = a formatting `TypeError` aborted it after the earlier writes). -/
def writeLoop (idS : String) (merged : TriggerConf) : List String → List Event × Bool
  | [] => ([], true)
  | g :: gs =>
    match setCommand g merged with
    | none => ([], false)
    | some c =>
      let rest := writeLoop idS merged gs
      (Event.write (insertId idS c) :: rest.1, rest.2)

/-- `TriggerChannel.set_triggerConfig(**kwargs)`.

Faithful to the source's aliasing: `triggerConfDict = self.get_triggerConfig()`
returns `self.triggerConfDict` itself, so the local name and the attribute are
one dict object throughout the call.  The successive values of that single
object are `conf0` (after the first read), `merged` (after the deltas are
assigned), and `conf2` (after the second read overwrites all eight keys).
The final `statusFlag = self.triggerConfDict == triggerConfDict` therefore
compares `conf2` with itself.

Returns the I/O trace, the final object state (id and dict value at return or
at the point the exception escapes), and the returned flag or raised error. -/
def set_triggerConfig (st : TrigState) (kwargs : List (String × PVal)) (r1 r2 : TrigReplies) :
    List Event × TrigState × Except PyErr Bool :=
  match get_triggerConfig st.triggerConfDict r1 with
  | (ev1, Except.error cpart) => (ev1, ⟨st.id, cpart⟩, Except.error PyErr.readFail)
  | (ev1, Except.ok conf0) =>
    let id1 := sourcedId st kwargs
    match changedValues conf0 kwargs with
    | Except.error e => (ev1, ⟨id1, conf0⟩, Except.error e)
    | Except.ok changed =>
      let merged := applyDeltas conf0 kwargs changed
      let wl := writeLoop (pvalStr id1) merged (processToChange changed)
      if wl.2 = false then (ev1 ++ wl.1, ⟨id1, merged⟩, Except.error PyErr.typeError)
      else
        match get_triggerConfig merged r2 with
        | (ev2, Except.error c2p) => (ev1 ++ wl.1 ++ ev2, ⟨id1, c2p⟩, Except.error PyErr.readFail)
        | (ev2, Except.ok conf2) =>
          (ev1 ++ wl.1 ++ ev2, ⟨id1, conf2⟩, Except.ok (confEqb conf2 conf2))

/-- `is_ready` `get_process`: `True if (v.split(" ", 1)[-1] in ["Stop",
"Ready", "Armed"]) else False`. -/
def is_ready_get_process (v : String) : Bool :=
  (["Stop", "Ready", "Armed"] : List String).contains (splitFirstTail ' ' v)

/-- `SDS1072CML.arm()`: reads `self.is_ready` (one `SAST?` query), and only
when it is true writes `ARM` and returns `True`. -/
def arm (sast : String) : List Event × Bool :=
  if is_ready_get_process sast then
    ([Event.query "SAST?", Event.write "ARM"], true)
  else
    ([Event.query "SAST?"], false)

/-- The `n` bytes of `buf` starting at `off`; `none` models `struct.error` on
a buffer shorter than `unpack_from` requires. -/
def bytesAt (buf : List Nat) (off n : Nat) : Option (List Nat) :=
  if off + n ≤ buf.length then some ((buf.drop off).take n) else none

/-- Little-endian value of a byte list (first byte least significant). -/
def leVal (bs : List Nat) : Nat :=
  bs.foldr (fun b acc => b % 256 + 256 * acc) 0

/-- Two's-complement reading of an unsigned `bits`-bit value. -/
def toSigned (bits : Nat) (u : Nat) : ℤ :=
  if u < 2 ^ (bits - 1) then (u : ℤ) else (u : ℤ) - 2 ^ bits

/-- IEEE-754 binary32 value of a 32-bit pattern, as an exact rational.
(Exponent 255 — infinities and NaNs — has no rational value; the formula is
extended over it, and no claim evaluates such a pattern.) -/
def decodeF32 (u : Nat) : ℚ :=
  let s : ℕ := u / 2 ^ 31 % 2
  let e : ℕ := u / 2 ^ 23 % 256
  let m : ℕ := u % 2 ^ 23
  let mag : ℚ := if e = 0 then (m : ℚ) / 2 ^ 149 else ((2 ^ 23 + m : ℕ) : ℚ) * (2 : ℚ) ^ ((e : ℤ) - 150)
  if s = 1 then -mag else mag

/-- IEEE-754 binary64 value of a 64-bit pattern, as an exact rational (same
convention for exponent 2047 as `decodeF32`). -/
def decodeF64 (u : Nat) : ℚ :=
  let s : ℕ := u / 2 ^ 63 % 2
  let e : ℕ := u / 2 ^ 52 % 2048
  let m : ℕ := u % 2 ^ 52
  let mag : ℚ := if e = 0 then (m : ℚ) / 2 ^ 1074 else ((2 ^ 52 + m : ℕ) : ℚ) * (2 : ℚ) ^ ((e : ℤ) - 1075)
  if s = 1 then -mag else mag

/-- The waveform descriptor dictionary built by `get_desc`. -/
structure WaveDesc where
  numDataPoints : ℤ
  verticalGain : ℚ
  verticalOffset : ℚ
  horizInterval : ℚ
  horizOffset : ℚ
  descriptorOffset : ℕ
  deriving DecidableEq

/-- `VoltageChannel.get_desc` decoding of the descriptor reply buffer.
`struct.unpack_from` formats as in the source: `"l"` is the *native* long —
8 bytes, little-endian, on the LP64 platform this embedding fixes — while
`"f"` and `"d"` are 4- and 8-byte little-endian floats; each unpack errors
(`none`) when the buffer is too short for its offset. -/
def get_desc (descriptor : List Nat) : Option WaveDesc := do
  let descriptorOffset := 21
  let nb ← bytesAt descriptor (descriptorOffset + 60) 8
  let gb ← bytesAt descriptor (descriptorOffset + 156) 4
  let ob ← bytesAt descriptor (descriptorOffset + 160) 4
  let hb ← bytesAt descriptor (descriptorOffset + 176) 4
  let hob ← bytesAt descriptor (descriptorOffset + 180) 8
  return { numDataPoints := toSigned 64 (leVal nb)
           verticalGain := decodeF32 (leVal gb)
           verticalOffset := decodeF32 (leVal ob)
           horizInterval := decodeF32 (leVal hb)
           horizOffset := decodeF64 (leVal hob)
           descriptorOffset := descriptorOffset }

/-- The reading the spec's words prescribe for `numDataPoints`: a 4-byte
signed little-endian integer at `descriptorOffset + 60`.  Stated for
comparison with what `get_desc` computes. -/
def numDataPointsLE32 (descriptor : List Nat) : Option ℤ :=
  (bytesAt descriptor (21 + 60) 4).map (fun bs => toSigned 32 (leVal bs))

/-- The sample-decoding part of `VoltageChannel.get_waveform` (lines 73–88):
`numDataPoints` consecutive signed bytes starting at `descriptorOffset`,
scaled to volts, with arithmetic time tags.  `none` models the `struct.error`
on a short buffer or a negative count in the `"%db"` format. -/
def get_waveform_decode (d : WaveDesc) (response : List Nat) : Option (List ℚ × List ℚ) :=
  if d.numDataPoints < 0 then none
  else
    let n := d.numDataPoints.toNat
    if d.descriptorOffset + n ≤ response.length then
      let rawWaveform := (List.range n).map
        (fun (i : ℕ) => toSigned 8 (response.getD (d.descriptorOffset + i) 0 % 256))
      let waveform := rawWaveform.map
        (fun (point : ℤ) => (point : ℚ) * d.verticalGain - d.verticalOffset)
      let timetags := (List.range rawWaveform.length).map
        (fun (i : ℕ) => (i : ℚ) * d.horizInterval + d.horizOffset)
      some (timetags, waveform)
    else none

/-- `VoltageChannel.get_waveform`: first the descriptor round trip
(`C{ch}:WF? DESC` write, terminated-bytes read, decode — a decode failure
raises before anything else happens), then the data round trip
(`C{ch}:WF? DAT2` write, terminated-bytes read) and the sample decode. -/
def get_waveform (chId : String) (descReply response : List Nat) :
    List Event × Option (List ℚ × List ℚ) :=
  match get_desc descReply with
  | none => ([Event.write (insertId chId "C{ch}:WF? DESC"), Event.readBytes], none)
  | some d =>
    ([Event.write (insertId chId "C{ch}:WF? DESC"), Event.readBytes,
      Event.write (insertId chId "C{ch}:WF? DAT2"), Event.readBytes],
     get_waveform_decode d response)

/-- A concrete round of trigger replies: baseline type EDGE, trigger source
C1 (reported consistently by all sub-queries), hold TI / 100NS, level 1.5 V,
slope POS, mode AUTO, coupling DC. -/
def exReplies : TrigReplies :=
  { trse := "TRSE EDGE,SR,C1,HT,TI,HV,100NS"
    trlv := "C1:TRLV 1.50E+00V"
    trsl := "C1:TRSL POS"
    trmd := "TRMD AUTO"
    trcp := "C1:TRCP DC" }

/-- The configuration `exReplies` parses to. -/
def exBase : TriggerConf :=
  { type := PVal.str "EDGE", source := PVal.str "C1", hold_type := PVal.str "TI"
    hold_value1 := PVal.str "100NS", level := PVal.num ⟨150, 100⟩, slope := PVal.str "POS"
    mode := PVal.str "AUTO", coupling := PVal.str "DC" }

/-- A trigger channel in its creation state: id `""` (the `ChannelCreator`
argument for the trigger channel); the cache value is irrelevant. -/
def exState : TrigState := ⟨PVal.str "", exBase⟩

/-- The list of the eight configuration keys. -/
def allowedKeys : List String :=
  ["type", "source", "hold_type", "hold_value1", "level", "slope", "mode", "coupling"]

/-- A concrete waveform descriptor: 2 samples, gain 0.01 V/code, offset 0.5 V,
1 µs per sample, no time offset, 21-byte preamble. -/
def exDesc : WaveDesc :=
  { numDataPoints := 2, verticalGain := 1 / 100, verticalOffset := 1 / 2
    horizInterval := 1 / 1000000, horizOffset := 0, descriptorOffset := 21 }

/-- A concrete raw waveform reply: 21 preamble bytes then the two sample
codes 200 (= −56 as a signed byte) and 7. -/
def exWavBuf : List Nat := List.replicate 21 0 ++ [200, 7]

/-- A concrete descriptor reply buffer of 209 bytes: at the `numDataPoints`
position (byte 81 = 21 + 60) the 4-byte little-endian integer 346, and a
nonzero byte right after that field (byte 85, the start of the next
descriptor field); all float fields zero. -/
def exDescReply : List Nat :=
  (List.range 209).map (fun i => if i = 81 then 90 else if i = 82 then 1 else if i = 85 then 1 else 0)

end Siglent

namespace Siglent

set_option maxRecDepth 8000

theorem writesOf_append (a b : List Event) : writesOf (a ++ b) = writesOf a ++ writesOf b :=
  List.filterMap_append a b _

theorem writesOf_get_triggerConfig (c : TriggerConf) (r : TrigReplies) :
    writesOf (get_triggerConfig c r).1 = [] := by
  unfold get_triggerConfig
  cases hs : parse_trigger_setup r.trse with
  | none => rfl
  | some v =>
    obtain ⟨t, src1, ht, hv⟩ := v
    cases hl : parse_trigger_level r.trlv with
    | none => rfl
    | some w => rfl

theorem pvalEqb_self (v : PVal) : pvalEqb v v = true := by
  cases v <;> simp [pvalEqb, pyFloatEqb]

theorem confEqb_self (c : TriggerConf) : confEqb c c = true := by
  simp [confEqb, pvalEqb_self]

/-- Claim C8: `arm()` is guarded by the readiness check on the `SAST?` status
reply: a failed check issues no write and returns false; a passed check
issues exactly one `ARM` write and returns true, with no verifying re-read. -/
theorem arm_guarded (v : String) :
    (is_ready_get_process v = false → arm v = ([Event.query "SAST?"], false)) ∧
    (is_ready_get_process v = true → arm v = ([Event.query "SAST?", Event.write "ARM"], true)) := by
  constructor <;> intro h <;> simp [arm, h]

/-- Witness for C8 at the concrete status replies `"SAST Stop"` (ready) and
`"SAST Roll"` (not ready). -/
theorem arm_guarded_witness :
    (is_ready_get_process "SAST Roll" = false ∧ arm "SAST Roll" = ([Event.query "SAST?"], false)) ∧
    (is_ready_get_process "SAST Stop" = true ∧
      arm "SAST Stop" = ([Event.query "SAST?", Event.write "ARM"], true)) :=
  ⟨⟨by decide, (arm_guarded "SAST Roll").1 (by decide)⟩,
   ⟨by decide, (arm_guarded "SAST Stop").2 (by decide)⟩⟩

/-- Claim C7: in `get_waveform` the descriptor round trip (write of
`C{ch}:WF? DESC`, terminated-bytes read) happens first, and the raw-waveform
round trip (write of `C{ch}:WF? DAT2`, terminated-bytes read) only ever
happens after it — the trace starts with the descriptor write and read, and
the remainder is either empty (descriptor decode failed) or exactly the data
write followed by the data read. -/
theorem get_waveform_desc_first (chId : String) (descReply response : List Nat) :
    ∃ rest, (get_waveform chId descReply response).1 =
        Event.write (insertId chId "C{ch}:WF? DESC") :: Event.readBytes :: rest ∧
      (rest = [] ∨ rest = [Event.write (insertId chId "C{ch}:WF? DAT2"), Event.readBytes]) := by
  cases h : get_desc descReply with
  | none => exact ⟨[], by simp [get_waveform, h], Or.inl rfl⟩
  | some d =>
    exact ⟨[Event.write (insertId chId "C{ch}:WF? DAT2"), Event.readBytes],
      by simp [get_waveform, h], Or.inr rfl⟩

/-- Claim C4: for a descriptor with `N = numDataPoints ≥ 0` and a sample
buffer of at least `descriptorOffset + N` bytes, the sample decode returns
two sequences of length `N`, with `voltage[i] = c * verticalGain -
verticalOffset` for the signed byte `c` at buffer position
`descriptorOffset + i`, and `time[i] = i * horizInterval + horizOffset`. -/
theorem get_waveform_decode_pointwise (d : WaveDesc) (response : List Nat)
    (h0 : 0 ≤ d.numDataPoints)
    (h1 : d.descriptorOffset + d.numDataPoints.toNat ≤ response.length) :
    ∃ timetags waveform,
      get_waveform_decode d response = some (timetags, waveform) ∧
      timetags.length = d.numDataPoints.toNat ∧
      waveform.length = d.numDataPoints.toNat ∧
      ∀ i, i < d.numDataPoints.toNat →
        waveform.getD i 0 =
          (toSigned 8 (response.getD (d.descriptorOffset + i) 0 % 256) : ℚ) * d.verticalGain -
            d.verticalOffset ∧
        timetags.getD i 0 = (i : ℚ) * d.horizInterval + d.horizOffset := by
  have hn : ¬ d.numDataPoints < 0 := not_lt.mpr h0
  have key : get_waveform_decode d response =
      some (((List.range d.numDataPoints.toNat).map
               (fun (i : ℕ) => (i : ℚ) * d.horizInterval + d.horizOffset)),
            ((List.range d.numDataPoints.toNat).map
               (fun (i : ℕ) => toSigned 8 (response.getD (d.descriptorOffset + i) 0 % 256))).map
              (fun (point : ℤ) => (point : ℚ) * d.verticalGain - d.verticalOffset)) := by
    simp only [get_waveform_decode, hn, if_false, h1, if_true, List.length_map,
      List.length_range]
  refine ⟨_, _, key, by simp, by simp, ?_⟩
  intro i hi
  constructor
  · rw [List.getD_eq_getElem?_getD]
    simp [List.getElem?_map, List.getElem?_range, hi]
  · rw [List.getD_eq_getElem?_getD]
    simp [List.getElem?_map, List.getElem?_range, hi]

/-- Witness for C4 at a concrete descriptor (N = 2, gain 0.01, offset 0.5,
interval 1e-6, no time offset) and a 23-byte buffer with sample codes 200
and 7. -/
theorem get_waveform_decode_pointwise_witness :
    (0 ≤ exDesc.numDataPoints ∧
      exDesc.descriptorOffset + exDesc.numDataPoints.toNat ≤ exWavBuf.length) ∧
    (∃ timetags waveform,
      get_waveform_decode exDesc exWavBuf = some (timetags, waveform) ∧
      timetags.length = exDesc.numDataPoints.toNat ∧
      waveform.length = exDesc.numDataPoints.toNat ∧
      ∀ i, i < exDesc.numDataPoints.toNat →
        waveform.getD i 0 =
          (toSigned 8 (exWavBuf.getD (exDesc.descriptorOffset + i) 0 % 256) : ℚ) *
              exDesc.verticalGain - exDesc.verticalOffset ∧
        timetags.getD i 0 = (i : ℚ) * exDesc.horizInterval + exDesc.horizOffset) :=
  ⟨⟨by decide, by decide⟩,
   get_waveform_decode_pointwise exDesc exWavBuf (by decide) (by decide)⟩

/-- Claim C3 (code bug): `get_desc` unpacks `numDataPoints` with the *native*
`"l"` format — 8 bytes on the LP64 platforms this driver runs on — not the
4-byte little-endian integer the descriptor layout defines.  On a descriptor
reply whose 4-byte field at offset 21 + 60 holds 346 but whose following
byte is nonzero, the code returns 4294967642 (= 346 + 2^32) where the
claimed 4-byte little-endian decoding yields 346. -/
theorem get_desc_numDataPoints_native_width :
    (get_desc exDescReply).map (fun d => d.numDataPoints) = some 4294967642 ∧
    numDataPointsLE32 exDescReply = some 346 ∧ (4294967642 : ℤ) ≠ 346 := by
  refine ⟨by decide, by decide, by decide⟩

theorem set_triggerConfig_ok_eq (st : TrigState) (kwargs : List (String × PVal))
    (r1 r2 : TrigReplies) (ev1 : List Event) (conf0 : TriggerConf) (changed : List String)
    (h1 : get_triggerConfig st.triggerConfDict r1 = (ev1, Except.ok conf0))
    (h2 : changedValues conf0 kwargs = Except.ok changed) :
    set_triggerConfig st kwargs r1 r2 =
      (if (writeLoop (pvalStr (sourcedId st kwargs)) (applyDeltas conf0 kwargs changed)
            (processToChange changed)).2 = false then
        (ev1 ++ (writeLoop (pvalStr (sourcedId st kwargs)) (applyDeltas conf0 kwargs changed)
            (processToChange changed)).1,
         ⟨sourcedId st kwargs, applyDeltas conf0 kwargs changed⟩, Except.error PyErr.typeError)
      else
        match get_triggerConfig (applyDeltas conf0 kwargs changed) r2 with
        | (ev2, Except.error c2p) =>
          (ev1 ++ (writeLoop (pvalStr (sourcedId st kwargs)) (applyDeltas conf0 kwargs changed)
              (processToChange changed)).1 ++ ev2,
           ⟨sourcedId st kwargs, c2p⟩, Except.error PyErr.readFail)
        | (ev2, Except.ok conf2) =>
          (ev1 ++ (writeLoop (pvalStr (sourcedId st kwargs)) (applyDeltas conf0 kwargs changed)
              (processToChange changed)).1 ++ ev2,
           ⟨sourcedId st kwargs, conf2⟩, Except.ok (confEqb conf2 conf2))) := by
  unfold set_triggerConfig
  rw [h1]
  dsimp only
  rw [h2]

theorem set_triggerConfig_err_eq (st : TrigState) (kwargs : List (String × PVal))
    (r1 r2 : TrigReplies) (ev1 : List Event) (conf0 : TriggerConf) (e : PyErr)
    (h1 : get_triggerConfig st.triggerConfDict r1 = (ev1, Except.ok conf0))
    (h2 : changedValues conf0 kwargs = Except.error e) :
    set_triggerConfig st kwargs r1 r2 = (ev1, ⟨sourcedId st kwargs, conf0⟩, Except.error e) := by
  unfold set_triggerConfig
  rw [h1]
  dsimp only
  rw [h2]

theorem writeLoop_eq_map (idS : String) (m : TriggerConf) (gs : List String)
    (h : ∀ g ∈ gs, setCommand g m ≠ none) :
    writeLoop idS m gs =
      (gs.map (fun g => Event.write (insertId idS ((setCommand g m).getD ""))), true) := by
  induction gs with
  | nil => rfl
  | cons g gs ih =>
    cases hc : setCommand g m with
    | none => exact absurd hc (h g (List.mem_cons_self g gs))
    | some c =>
      simp [writeLoop, hc, ih (fun x hx => h x (List.mem_cons_of_mem _ hx))]

theorem writesOf_map_write {α : Type} (f : α → String) (l : List α) :
    writesOf (l.map (fun x => Event.write (f x))) = l.map f := by
  induction l with
  | nil => rfl
  | cons x xs ih =>
    simp only [List.map_cons, writesOf, List.filterMap_cons] at ih ⊢
    rw [ih]

theorem set_writes_nil_of_no_change (st : TrigState) (kwargs : List (String × PVal))
    (r1 r2 : TrigReplies) (ev1 : List Event) (conf0 : TriggerConf)
    (h1 : get_triggerConfig st.triggerConfDict r1 = (ev1, Except.ok conf0))
    (h2 : changedValues conf0 kwargs = Except.ok []) :
    writesOf (set_triggerConfig st kwargs r1 r2).1 = [] ∧
    ∀ b, (set_triggerConfig st kwargs r1 r2).2.2 = Except.ok b → b = true := by
  have hw1 : writesOf ev1 = [] := by
    have h := writesOf_get_triggerConfig st.triggerConfDict r1
    rw [h1] at h
    exact h
  have hp : processToChange ([] : List String) = [] := rfl
  have ha : applyDeltas conf0 kwargs ([] : List String) = conf0 := rfl
  have hkey := set_triggerConfig_ok_eq st kwargs r1 r2 ev1 conf0 [] h1 h2
  rw [hkey, hp, ha]
  have hwl : writeLoop (pvalStr (sourcedId st kwargs)) conf0 [] = ([], true) := rfl
  rw [hwl]
  simp only [Prod.snd, Bool.true_eq_false, if_false, List.append_nil, List.nil_append]
  cases hg2 : get_triggerConfig conf0 r2 with
  | mk ev2 res2 =>
    have hw2 : writesOf ev2 = [] := by
      have h := writesOf_get_triggerConfig conf0 r2
      rw [hg2] at h
      exact h
    cases res2 with
    | error c2p =>
      constructor
      · rw [writesOf_append, hw1, hw2]
        rfl
      · intro b hb
        cases hb
    | ok conf2 =>
      constructor
      · rw [writesOf_append, hw1, hw2]
        rfl
      · intro b hb
        simp only [Except.ok.injEq] at hb
        rw [← hb, confEqb_self]

/-- Claim C6: a `set_triggerConfig` call with an empty desired configuration
writes no command (its trace contains no write events, only the read
queries), and whenever it returns a flag at all — the reads can still raise —
that flag is true. -/
theorem set_triggerConfig_empty_noop (st : TrigState) (r1 r2 : TrigReplies) :
    writesOf (set_triggerConfig st [] r1 r2).1 = [] ∧
    ∀ b, (set_triggerConfig st [] r1 r2).2.2 = Except.ok b → b = true := by
  cases hg1 : get_triggerConfig st.triggerConfDict r1 with
  | mk ev1 res1 =>
    have hw1 : writesOf ev1 = [] := by
      have h := writesOf_get_triggerConfig st.triggerConfDict r1
      rw [hg1] at h
      exact h
    cases res1 with
    | error cpart =>
      constructor
      · simp only [set_triggerConfig, hg1]
        exact hw1
      · intro b hb
        simp only [set_triggerConfig, hg1] at hb
        cases hb
    | ok conf0 =>
      exact set_writes_nil_of_no_change st [] r1 r2 ev1 conf0 hg1 rfl

/-- Witness for C6 at a concrete state and concrete replies. -/
theorem set_triggerConfig_empty_noop_witness :
    writesOf (set_triggerConfig exState [] exReplies exReplies).1 = [] ∧
    (set_triggerConfig exState [] exReplies exReplies).2.2 = Except.ok true :=
  ⟨(set_triggerConfig_empty_noop exState exReplies exReplies).1, rfl⟩

/-- Claim C5: one trigger read issues exactly `TRSE?`, `TRLV?`, `TRSL?`,
`TRMD?`, `TRCP?` in that order, and the merged mapping it produces (which is
also the new cache value and the returned value) has each key from its
sub-query; on the one colliding key, `source`, the value is the one reported
by the last-read sub-query `TRCP?` — independently of the previous cache. -/
theorem get_triggerConfig_sequence (cache : TriggerConf) (r : TrigReplies)
    (t src1 ht hv src2 : String) (lvl : PyFloat)
    (h1 : parse_trigger_setup r.trse = some (t, src1, ht, hv))
    (h2 : parse_trigger_level r.trlv = some (src2, lvl)) :
    get_triggerConfig cache r =
      ([Event.query "TRSE?", Event.query "TRLV?", Event.query "TRSL?",
        Event.query "TRMD?", Event.query "TRCP?"],
       Except.ok
         { type := PVal.str t
           source := PVal.str (parse_trigger_coupling r.trcp).1
           hold_type := PVal.str ht
           hold_value1 := PVal.str hv
           level := PVal.num lvl
           slope := PVal.str (parse_trigger_slope r.trsl).2
           mode := PVal.str (parse_trigger_mode r.trmd)
           coupling := PVal.str (parse_trigger_coupling r.trcp).2 }) := by
  unfold get_triggerConfig
  rw [h1]
  dsimp only
  rw [h2]

/-- Witness for C5 at the concrete reply round `exReplies` (where `TRSE?`
reports source C1 and `TRCP?` also reports C1). -/
theorem get_triggerConfig_sequence_witness :
    (parse_trigger_setup exReplies.trse = some ("EDGE", "C1", "TI", "100NS") ∧
     parse_trigger_level exReplies.trlv = some ("C1", ⟨150, 100⟩)) ∧
    get_triggerConfig exBase exReplies =
      ([Event.query "TRSE?", Event.query "TRLV?", Event.query "TRSL?",
        Event.query "TRMD?", Event.query "TRCP?"],
       Except.ok
         { type := PVal.str "EDGE"
           source := PVal.str (parse_trigger_coupling exReplies.trcp).1
           hold_type := PVal.str "TI"
           hold_value1 := PVal.str "100NS"
           level := PVal.num ⟨150, 100⟩
           slope := PVal.str (parse_trigger_slope exReplies.trsl).2
           mode := PVal.str (parse_trigger_mode exReplies.trmd)
           coupling := PVal.str (parse_trigger_coupling exReplies.trcp).2 }) :=
  ⟨⟨rfl, rfl⟩,
   get_triggerConfig_sequence exBase exReplies "EDGE" "C1" "TI" "100NS" "C1" ⟨150, 100⟩ rfl rfl⟩

theorem confGet_none_of_not_allowed (c : TriggerConf) (k : String) (h : k ∉ allowedKeys) :
    confGet c k = none := by
  simp only [allowedKeys, List.mem_cons, List.not_mem_nil, or_false, not_or] at h
  obtain ⟨n1, n2, n3, n4, n5, n6, n7, n8⟩ := h
  simp [confGet, n1, n2, n3, n4, n5, n6, n7, n8]

theorem changedValues_error_of_unknown (c : TriggerConf) (kwargs : List (String × PVal))
    (k : String) (v : PVal) (hk : (k, v) ∈ kwargs) (hnone : confGet c k = none) :
    ∃ e, changedValues c kwargs = Except.error (PyErr.keyError e) := by
  induction kwargs with
  | nil => cases hk
  | cons p rest ih =>
    obtain ⟨k', v'⟩ := p
    by_cases hck : confGet c k' = none
    · exact ⟨k', by simp [changedValues, hck]⟩
    · rcases List.mem_cons.mp hk with heq | hmem
      · obtain ⟨hk1, hk2⟩ := Prod.mk.injEq .. ▸ heq
        exact absurd (hk1 ▸ hnone) hck
      · obtain ⟨e, he⟩ := ih hmem
        obtain ⟨cur, hcur⟩ := Option.ne_none_iff_exists'.mp hck
        refine ⟨e, ?_⟩
        simp [changedValues, hcur, he]

/-- Claim C9: a desired configuration containing a key outside the eight
configuration keys makes `set_triggerConfig` raise `KeyError` while diffing:
the call's trace is exactly the initial read (no set command has been
written), and the outcome is the raised `KeyError`, not a silent skip. -/
theorem set_triggerConfig_unknown_key_raises (st : TrigState)
    (kwargs : List (String × PVal)) (r1 r2 : TrigReplies)
    (ev1 : List Event) (conf0 : TriggerConf) (k : String) (v : PVal)
    (h1 : get_triggerConfig st.triggerConfDict r1 = (ev1, Except.ok conf0))
    (hk : (k, v) ∈ kwargs) (hbad : k ∉ allowedKeys) :
    (∃ e, (set_triggerConfig st kwargs r1 r2).2.2 = Except.error (PyErr.keyError e)) ∧
    (set_triggerConfig st kwargs r1 r2).1 = ev1 ∧
    writesOf (set_triggerConfig st kwargs r1 r2).1 = [] := by
  have hnone := confGet_none_of_not_allowed conf0 k hbad
  obtain ⟨e, he⟩ := changedValues_error_of_unknown conf0 kwargs k v hk hnone
  have hkey := set_triggerConfig_err_eq st kwargs r1 r2 ev1 conf0 (PyErr.keyError e) h1 he
  have hw1 : writesOf ev1 = [] := by
    have h := writesOf_get_triggerConfig st.triggerConfDict r1
    rw [h1] at h
    exact h
  rw [hkey]
  exact ⟨⟨e, rfl⟩, rfl, hw1⟩

/-- Witness for C9 with the unknown key `"bogus"`. -/
theorem set_triggerConfig_unknown_key_raises_witness :
    (∃ e, (set_triggerConfig exState [("bogus", PVal.str "X")] exReplies exReplies).2.2 =
        Except.error (PyErr.keyError e)) ∧
    (set_triggerConfig exState [("bogus", PVal.str "X")] exReplies exReplies).1 =
      [Event.query "TRSE?", Event.query "TRLV?", Event.query "TRSL?",
       Event.query "TRMD?", Event.query "TRCP?"] ∧
    writesOf (set_triggerConfig exState [("bogus", PVal.str "X")] exReplies exReplies).1 = [] :=
  set_triggerConfig_unknown_key_raises exState [("bogus", PVal.str "X")] exReplies exReplies
    [Event.query "TRSE?", Event.query "TRLV?", Event.query "TRSL?",
     Event.query "TRMD?", Event.query "TRCP?"]
    exBase "bogus" (PVal.str "X") rfl (List.mem_singleton.mpr rfl) (by decide)

/-- Claim C1 (code bug): in the source, `triggerConfDict =
self.get_triggerConfig()` binds the local name to `self.triggerConfDict`
itself, so the post-write comparison `self.triggerConfDict == triggerConfDict`
compares one dict object with itself and the transaction returns True
unconditionally.  At this concrete failing input — desired mode NORM,
baseline mode AUTO, the simulated instrument ignoring the change (the
post-write read still reports AUTO) — the call issues the mode command, the
post-write configuration differs from the predicted configuration (baseline
with the desired delta applied), and the returned flag is nevertheless
True, where the claim requires False. -/
theorem set_triggerConfig_flag_true_despite_mismatch :
    (get_triggerConfig exState.triggerConfDict exReplies).2 = Except.ok exBase ∧
    changedValues exBase [("mode", PVal.str "NORM")] = Except.ok ["mode"] ∧
    writesOf (set_triggerConfig exState [("mode", PVal.str "NORM")] exReplies exReplies).1 =
      ["TRMD NORM"] ∧
    confEqb
        (set_triggerConfig exState [("mode", PVal.str "NORM")]
          exReplies exReplies).2.1.triggerConfDict
        (applyDeltas exBase [("mode", PVal.str "NORM")] ["mode"]) = false ∧
    (set_triggerConfig exState [("mode", PVal.str "NORM")] exReplies exReplies).2.2 =
      Except.ok true :=
  ⟨rfl, rfl, rfl, rfl, rfl⟩

/-- Counterexample to C2 as stated: with the trigger channel still holding
its creation id `""`, changing only `type` writes a setup command whose
source slot is *blank* — `TRSE SLEW,SR,,HT,TI,HV,100NS` — not the baseline
source `C1` the claim promises. -/
theorem setup_source_slot_counterexample :
    (get_triggerConfig exState.triggerConfDict exReplies).2 = Except.ok exBase ∧
    exBase.source = PVal.str "C1" ∧
    writesOf (set_triggerConfig exState [("type", PVal.str "SLEW")] exReplies exReplies).1 =
      ["TRSE SLEW,SR,,HT,TI,HV,100NS"] ∧
    writesOf (set_triggerConfig exState [("type", PVal.str "SLEW")] exReplies exReplies).1 ≠
      ["TRSE SLEW,SR,C1,HT,TI,HV,100NS"] :=
  ⟨rfl, rfl, rfl, by decide⟩

/-- Claim C2 as amended: when a setup-group key changes, the write list is
one command per dirty group in the fixed group order, containing exactly one
setup command; that setup command carries `type`, `hold_type` and
`hold_value1` from the merged state (baseline with desired deltas applied),
while its source slot is the `{ch}` substitution of the channel id — the
desired source when one was supplied, otherwise the channel's previous id —
not the merged source field. -/
theorem set_triggerConfig_setup_command (st : TrigState) (kwargs : List (String × PVal))
    (r1 r2 : TrigReplies) (ev1 : List Event) (conf0 : TriggerConf) (changed : List String)
    (h1 : get_triggerConfig st.triggerConfDict r1 = (ev1, Except.ok conf0))
    (h2 : changedValues conf0 kwargs = Except.ok changed)
    (hs : "setup" ∈ processToChange changed)
    (hall : ∀ g ∈ processToChange changed,
      setCommand g (applyDeltas conf0 kwargs changed) ≠ none) :
    writesOf (set_triggerConfig st kwargs r1 r2).1 =
      (processToChange changed).map (fun g =>
        insertId (pvalStr (sourcedId st kwargs))
          ((setCommand g (applyDeltas conf0 kwargs changed)).getD "")) ∧
    (processToChange changed).count "setup" = 1 ∧
    setCommand "setup" (applyDeltas conf0 kwargs changed) =
      some (pyFmtS "TRSE %s,SR,{ch},HT,%s,HV,%s"
        [pvalStr (applyDeltas conf0 kwargs changed).type,
         pvalStr (applyDeltas conf0 kwargs changed).hold_type,
         pvalStr (applyDeltas conf0 kwargs changed).hold_value1]) := by
  have hw1 : writesOf ev1 = [] := by
    have h := writesOf_get_triggerConfig st.triggerConfDict r1
    rw [h1] at h
    exact h
  have hwl := writeLoop_eq_map (pvalStr (sourcedId st kwargs))
    (applyDeltas conf0 kwargs changed) (processToChange changed) hall
  have hkey := set_triggerConfig_ok_eq st kwargs r1 r2 ev1 conf0 changed h1 h2
  refine ⟨?_, ?_, rfl⟩
  · rw [hkey, hwl]
    rw [if_neg (by simp)]
    cases hg2 : get_triggerConfig (applyDeltas conf0 kwargs changed) r2 with
    | mk ev2 res2 =>
      have hw2 : writesOf ev2 = [] := by
        have h := writesOf_get_triggerConfig (applyDeltas conf0 kwargs changed) r2
        rw [hg2] at h
        exact h
      cases res2 with
      | error c2p =>
        rw [writesOf_append, writesOf_append, hw1, hw2, writesOf_map_write]
        simp
      | ok conf2 =>
        rw [writesOf_append, writesOf_append, hw1, hw2, writesOf_map_write]
        simp
  · have hnd : (processToChange changed).Nodup :=
      List.Nodup.filter _ (by decide : groupOrder.Nodup)
    exact List.count_eq_one_of_mem hnd hs

/-- Witness for the amended C2 at the concrete input of the counterexample:
only `type` changes, the one dirty group is `setup`, and the emitted command
carries the merged type and the unchanged baseline hold fields with the
(blank) channel id in the source slot. -/
theorem set_triggerConfig_setup_command_witness :
    writesOf (set_triggerConfig exState [("type", PVal.str "SLEW")] exReplies exReplies).1 =
      (processToChange ["type"]).map (fun g =>
        insertId (pvalStr (sourcedId exState [("type", PVal.str "SLEW")]))
          ((setCommand g (applyDeltas exBase [("type", PVal.str "SLEW")] ["type"])).getD "")) ∧
    (processToChange ["type"]).count "setup" = 1 ∧
    setCommand "setup" (applyDeltas exBase [("type", PVal.str "SLEW")] ["type"]) =
      some (pyFmtS "TRSE %s,SR,{ch},HT,%s,HV,%s"
        [pvalStr (applyDeltas exBase [("type", PVal.str "SLEW")] ["type"]).type,
         pvalStr (applyDeltas exBase [("type", PVal.str "SLEW")] ["type"]).hold_type,
         pvalStr (applyDeltas exBase [("type", PVal.str "SLEW")] ["type"]).hold_value1]) :=
  set_triggerConfig_setup_command exState [("type", PVal.str "SLEW")] exReplies exReplies
    [Event.query "TRSE?", Event.query "TRLV?", Event.query "TRSL?",
     Event.query "TRMD?", Event.query "TRCP?"]
    exBase ["type"] rfl rfl (by decide) (by decide)

/-- Claim C10: whenever the desired configuration carries a `"source"` key,
the channel id — the `{ch}` of every later per-channel command — is
overwritten with that value on every outcome of the call; and when that value
`==`-equals the baseline source and is the only desired key, no command is
written even though the id still changed. -/
theorem set_triggerConfig_source_overwrites_id (st : TrigState)
    (kwargs : List (String × PVal)) (r1 r2 : TrigReplies)
    (ev1 : List Event) (conf0 : TriggerConf) (v : PVal)
    (h1 : get_triggerConfig st.triggerConfDict r1 = (ev1, Except.ok conf0))
    (hv : lookupKw kwargs "source" = some v) :
    (set_triggerConfig st kwargs r1 r2).2.1.id = v ∧
    (kwargs = [("source", v)] → pvalEqb conf0.source v = true →
      writesOf (set_triggerConfig st kwargs r1 r2).1 = []) := by
  have hsid : sourcedId st kwargs = v := by simp [sourcedId, hv]
  constructor
  · cases hc : changedValues conf0 kwargs with
    | error e =>
      rw [set_triggerConfig_err_eq st kwargs r1 r2 ev1 conf0 e h1 hc]
      exact hsid
    | ok changed =>
      rw [set_triggerConfig_ok_eq st kwargs r1 r2 ev1 conf0 changed h1 hc]
      by_cases hwl : (writeLoop (pvalStr (sourcedId st kwargs))
          (applyDeltas conf0 kwargs changed) (processToChange changed)).2 = false
      · rw [if_pos hwl]
        exact hsid
      · rw [if_neg hwl]
        cases hg2 : get_triggerConfig (applyDeltas conf0 kwargs changed) r2 with
        | mk ev2 res2 =>
          cases res2 with
          | error c2p => exact hsid
          | ok conf2 => exact hsid
  · intro hkw heq
    subst hkw
    have hc : changedValues conf0 [("source", v)] = Except.ok [] := by
      simp [changedValues, confGet, heq]
    exact (set_writes_nil_of_no_change st [("source", v)] r1 r2 ev1 conf0 h1 hc).1

/-- Witness for C10: desired source `"C1"` equals the baseline source; no
command is written, yet the channel id becomes `"C1"`. -/
theorem set_triggerConfig_source_overwrites_id_witness :
    (set_triggerConfig exState [("source", PVal.str "C1")] exReplies exReplies).2.1.id =
      PVal.str "C1" ∧
    writesOf (set_triggerConfig exState [("source", PVal.str "C1")] exReplies exReplies).1 = [] :=
  ⟨(set_triggerConfig_source_overwrites_id exState [("source", PVal.str "C1")]
      exReplies exReplies
      [Event.query "TRSE?", Event.query "TRLV?", Event.query "TRSL?",
       Event.query "TRMD?", Event.query "TRCP?"]
      exBase (PVal.str "C1") rfl rfl).1,
   (set_triggerConfig_source_overwrites_id exState [("source", PVal.str "C1")]
      exReplies exReplies
      [Event.query "TRSE?", Event.query "TRLV?", Event.query "TRSL?",
       Event.query "TRMD?", Event.query "TRCP?"]
      exBase (PVal.str "C1") rfl rfl).2 rfl (by decide)⟩

end Siglent
